import Mathlib

/-!
Verification of the reprojection residual functors of
`src/openMVG/sfm/sfm_data_BA_ceres_camera_functor.hpp` (openMVG bundle
adjustment cost functors for Ceres).

The four functors are embedded over the exact reals; parameter blocks are
embedded as functions `Fin n → ℝ`, mirroring the raw scalar arrays of the
source. The rotation primitive `ceres::AngleAxisRotatePoint` is implemented
in the external ceres library, whose source is not part of this repository;
it is modelled from the specification (Rodrigues' rotation formula with a
first-order Taylor guard at zero rotation).
-/

namespace OpenMVG

/-- A 3D vector of real scalars, standing for a `T[3]` array of the source. -/
structure Vec3 where
  x : ℝ
  y : ℝ
  z : ℝ

/-- Componentwise vector addition. -/
def Vec3.add (a b : Vec3) : Vec3 :=
  ⟨a.x + b.x, a.y + b.y, a.z + b.z⟩

/-- Scalar multiplication. -/
def Vec3.smul (c : ℝ) (a : Vec3) : Vec3 :=
  ⟨c * a.x, c * a.y, c * a.z⟩

/-- Dot product. -/
def Vec3.dot (a b : Vec3) : ℝ :=
  a.x * b.x + a.y * b.y + a.z * b.z

/-- Cross product. -/
def Vec3.cross (a b : Vec3) : Vec3 :=
  ⟨a.y * b.z - a.z * b.y, a.z * b.x - a.x * b.z, a.x * b.y - a.y * b.x⟩

/-- Modelled from the spec: the rotation primitive `ceres::AngleAxisRotatePoint`
(declared in the external header `ceres/rotation.h`, not part of this
repository's sources). Given axis-angle vector ω and point p, with θ = |ω| and
unit axis a = ω/θ, the rotated point is
p·cosθ + (a×p)·sinθ + a·(a·p)·(1−cosθ), guarding the zero-rotation case by a
first-order Taylor approximation p + ω×p to avoid division by zero. -/
noncomputable def AngleAxisRotatePoint (angle_axis pt : Vec3) : Vec3 :=
  if Vec3.dot angle_axis angle_axis = 0 then
    Vec3.add pt (Vec3.cross angle_axis pt)
  else
    let theta := Real.sqrt (Vec3.dot angle_axis angle_axis)
    let w := Vec3.smul (1 / theta) angle_axis
    Vec3.add
      (Vec3.add (Vec3.smul (Real.cos theta) pt)
        (Vec3.smul (Real.sin theta) (Vec3.cross w pt)))
      (Vec3.smul (Vec3.dot w pt * (1 - Real.cos theta)) w)

/-- Modelled from the spec: the closed-form Rodrigues rotation formula
p·cosθ + (a×p)·sinθ + a·(a·p)·(1−cosθ) with θ = |ω| and a = ω/θ, written
without the zero-rotation branch (in ℝ, division by zero yields zero, so at
ω = 0 the formula evaluates to p as well). Used as the specification-side
formula against which `AngleAxisRotatePoint` is compared. -/
noncomputable def rodriguesRotate (ω pt : Vec3) : Vec3 :=
  let theta := Real.sqrt (Vec3.dot ω ω)
  let a := Vec3.smul (1 / theta) ω
  Vec3.add
    (Vec3.add (Vec3.smul (Real.cos theta) pt)
      (Vec3.smul (Real.sin theta) (Vec3.cross a pt)))
    (Vec3.smul (Vec3.dot a pt * (1 - Real.cos theta)) a)

/-- Camera-space point of the plain (non-rig) functors: rotate the 3D point by
the axis-angle rotation `cam_Rt[0..2]`, then add the translation
`cam_Rt[3..5]` (source `pos_proj` after the translation lines). -/
noncomputable def pinholeCameraPoint (cam_Rt : Fin 6 → ℝ) (pos_3dpoint : Vec3) : Vec3 :=
  Vec3.add (AngleAxisRotatePoint ⟨cam_Rt 0, cam_Rt 1, cam_Rt 2⟩ pos_3dpoint)
    ⟨cam_Rt 3, cam_Rt 4, cam_Rt 5⟩

/-- The source's normalized coordinate `x_u = pos_proj[0] / pos_proj[2]`. -/
noncomputable def x_u (cam_Rt : Fin 6 → ℝ) (pos_3dpoint : Vec3) : ℝ :=
  (pinholeCameraPoint cam_Rt pos_3dpoint).x / (pinholeCameraPoint cam_Rt pos_3dpoint).z

/-- The source's normalized coordinate `y_u = pos_proj[1] / pos_proj[2]`. -/
noncomputable def y_u (cam_Rt : Fin 6 → ℝ) (pos_3dpoint : Vec3) : ℝ :=
  (pinholeCameraPoint cam_Rt pos_3dpoint).y / (pinholeCameraPoint cam_Rt pos_3dpoint).z

/-- The source's squared radius `r2 = x_u*x_u + y_u*y_u`. -/
noncomputable def r2 (cam_Rt : Fin 6 → ℝ) (pos_3dpoint : Vec3) : ℝ :=
  x_u cam_Rt pos_3dpoint * x_u cam_Rt pos_3dpoint +
    y_u cam_Rt pos_3dpoint * y_u cam_Rt pos_3dpoint

/-- Predicted pixel of `ResidualErrorFunctor_Pinhole_Intrinsic` (the source's
`projected_x`, `projected_y`). -/
noncomputable def pinholePredictedPixel (cam_K : Fin 3 → ℝ) (cam_Rt : Fin 6 → ℝ)
    (pos_3dpoint : Vec3) : ℝ × ℝ :=
  let pos_proj := pinholeCameraPoint cam_Rt pos_3dpoint
  let xu := pos_proj.x / pos_proj.z
  let yu := pos_proj.y / pos_proj.z
  (cam_K 1 + cam_K 0 * xu, cam_K 2 + cam_K 0 * yu)

/-- `ResidualErrorFunctor_Pinhole_Intrinsic::operator()`: returns the success
flag and the two residuals `out_residuals[0..1]` (predicted minus observed). -/
noncomputable def ResidualErrorFunctor_Pinhole_Intrinsic (cam_K : Fin 3 → ℝ)
    (cam_Rt : Fin 6 → ℝ) (pos_3dpoint : Vec3) (m_pos_2dpoint : ℝ × ℝ) :
    Bool × ℝ × ℝ :=
  let projected := pinholePredictedPixel cam_K cam_Rt pos_3dpoint
  (true, projected.1 - m_pos_2dpoint.1, projected.2 - m_pos_2dpoint.2)

/-- Predicted pixel of `ResidualErrorFunctor_Pinhole_Intrinsic_Radial_K1`:
one radial distortion term `r_coeff = 1 + k1*r2` applied to the normalized
coordinates before the intrinsic mapping. -/
noncomputable def radialK1PredictedPixel (cam_K : Fin 4 → ℝ) (cam_Rt : Fin 6 → ℝ)
    (pos_3dpoint : Vec3) : ℝ × ℝ :=
  let pos_proj := pinholeCameraPoint cam_Rt pos_3dpoint
  let xu := pos_proj.x / pos_proj.z
  let yu := pos_proj.y / pos_proj.z
  let k1 := cam_K 3
  let rr := xu * xu + yu * yu
  let r_coeff := 1 + k1 * rr
  let x_d := xu * r_coeff
  let y_d := yu * r_coeff
  (cam_K 1 + cam_K 0 * x_d, cam_K 2 + cam_K 0 * y_d)

/-- `ResidualErrorFunctor_Pinhole_Intrinsic_Radial_K1::operator()`. -/
noncomputable def ResidualErrorFunctor_Pinhole_Intrinsic_Radial_K1 (cam_K : Fin 4 → ℝ)
    (cam_Rt : Fin 6 → ℝ) (pos_3dpoint : Vec3) (m_pos_2dpoint : ℝ × ℝ) :
    Bool × ℝ × ℝ :=
  let projected := radialK1PredictedPixel cam_K cam_Rt pos_3dpoint
  (true, projected.1 - m_pos_2dpoint.1, projected.2 - m_pos_2dpoint.2)

/-- Predicted pixel of `ResidualErrorFunctor_Pinhole_Intrinsic_Radial_K3`:
distortion coefficient `r_coeff = 1 + k1*r2 + k2*r4 + k3*r6` with
`r4 = r2*r2`, `r6 = r4*r2`. -/
noncomputable def radialK3PredictedPixel (cam_K : Fin 6 → ℝ) (cam_Rt : Fin 6 → ℝ)
    (pos_3dpoint : Vec3) : ℝ × ℝ :=
  let pos_proj := pinholeCameraPoint cam_Rt pos_3dpoint
  let xu := pos_proj.x / pos_proj.z
  let yu := pos_proj.y / pos_proj.z
  let k1 := cam_K 3
  let k2 := cam_K 4
  let k3 := cam_K 5
  let rr := xu * xu + yu * yu
  let r4 := rr * rr
  let r6 := r4 * rr
  let r_coeff := 1 + k1 * rr + k2 * r4 + k3 * r6
  let x_d := xu * r_coeff
  let y_d := yu * r_coeff
  (cam_K 1 + cam_K 0 * x_d, cam_K 2 + cam_K 0 * y_d)

/-- `ResidualErrorFunctor_Pinhole_Intrinsic_Radial_K3::operator()`. -/
noncomputable def ResidualErrorFunctor_Pinhole_Intrinsic_Radial_K3 (cam_K : Fin 6 → ℝ)
    (cam_Rt : Fin 6 → ℝ) (pos_3dpoint : Vec3) (m_pos_2dpoint : ℝ × ℝ) :
    Bool × ℝ × ℝ :=
  let projected := radialK3PredictedPixel cam_K cam_Rt pos_3dpoint
  (true, projected.1 - m_pos_2dpoint.1, projected.2 - m_pos_2dpoint.2)

/-- Camera-space point of the rig functor, exactly as the source computes it:
`pos_proj = R_s (R X)` then `pos_proj += t_s + (R t_s)`. Note that the source
reads `cam_pose_t = &cam_Rt[3]` but never uses it, and the platform
translation is never added. -/
noncomputable def rigCameraPoint (cam_K : Fin 9 → ℝ) (cam_Rt : Fin 6 → ℝ)
    (pos_3dpoint : Vec3) : Vec3 :=
  let cam_pose_R : Vec3 := ⟨cam_Rt 0, cam_Rt 1, cam_Rt 2⟩
  let cam_subpose_R : Vec3 := ⟨cam_K 3, cam_K 4, cam_K 5⟩
  let cam_subpose_t : Vec3 := ⟨cam_K 6, cam_K 7, cam_K 8⟩
  let pos_rig := AngleAxisRotatePoint cam_pose_R pos_3dpoint
  let pos_proj := AngleAxisRotatePoint cam_subpose_R pos_rig
  let rig_trans := AngleAxisRotatePoint cam_pose_R cam_subpose_t
  Vec3.add pos_proj (Vec3.add cam_subpose_t rig_trans)

/-- Modelled from the spec: the camera-space point the spec's rig algorithm
describes — rotate the point by the platform rotation, rotate that by the
sub-pose rotation, then add the sub-pose translation rotated by the platform
rotation, plus the sub-pose translation, plus the platform translation
`cam_Rt[3..5]`. Used to compare the source's `rigCameraPoint` against the
spec's composition. -/
noncomputable def rigCameraPointSpec (cam_K : Fin 9 → ℝ) (cam_Rt : Fin 6 → ℝ)
    (pos_3dpoint : Vec3) : Vec3 :=
  let cam_pose_R : Vec3 := ⟨cam_Rt 0, cam_Rt 1, cam_Rt 2⟩
  let cam_pose_t : Vec3 := ⟨cam_Rt 3, cam_Rt 4, cam_Rt 5⟩
  let cam_subpose_R : Vec3 := ⟨cam_K 3, cam_K 4, cam_K 5⟩
  let cam_subpose_t : Vec3 := ⟨cam_K 6, cam_K 7, cam_K 8⟩
  let rotated := AngleAxisRotatePoint cam_subpose_R
    (AngleAxisRotatePoint cam_pose_R pos_3dpoint)
  Vec3.add rotated
    (Vec3.add (AngleAxisRotatePoint cam_pose_R cam_subpose_t)
      (Vec3.add cam_subpose_t cam_pose_t))

/-- Predicted pixel of `ResidualErrorFunctor_Pinhole_Rig_Intrinsic` (no
distortion; intrinsics `cam_K[0..2]` are focal and principal point). -/
noncomputable def rigPredictedPixel (cam_K : Fin 9 → ℝ) (cam_Rt : Fin 6 → ℝ)
    (pos_3dpoint : Vec3) : ℝ × ℝ :=
  let pos_proj := rigCameraPoint cam_K cam_Rt pos_3dpoint
  let xu := pos_proj.x / pos_proj.z
  let yu := pos_proj.y / pos_proj.z
  (cam_K 1 + cam_K 0 * xu, cam_K 2 + cam_K 0 * yu)

/-- `ResidualErrorFunctor_Pinhole_Rig_Intrinsic::operator()`. -/
noncomputable def ResidualErrorFunctor_Pinhole_Rig_Intrinsic (cam_K : Fin 9 → ℝ)
    (cam_Rt : Fin 6 → ℝ) (pos_3dpoint : Vec3) (m_pos_2dpoint : ℝ × ℝ) :
    Bool × ℝ × ℝ :=
  let projected := rigPredictedPixel cam_K cam_Rt pos_3dpoint
  (true, projected.1 - m_pos_2dpoint.1, projected.2 - m_pos_2dpoint.2)

/-- Modelled from the spec: the camera-space point `Rodrigues(r)·p + t` of the
spec's pinhole algorithm (steps 1 and 2 of section 4.1). -/
noncomputable def specCameraPoint (cam_Rt : Fin 6 → ℝ) (p : Vec3) : Vec3 :=
  Vec3.add (rodriguesRotate ⟨cam_Rt 0, cam_Rt 1, cam_Rt 2⟩ p)
    ⟨cam_Rt 3, cam_Rt 4, cam_Rt 5⟩

lemma Vec3.dot_self_eq_zero {v : Vec3} (h : Vec3.dot v v = 0) : v = ⟨0, 0, 0⟩ := by
  obtain ⟨x, y, z⟩ := v
  simp only [Vec3.dot] at h
  have hx : x * x = 0 :=
    le_antisymm (by nlinarith [mul_self_nonneg y, mul_self_nonneg z]) (mul_self_nonneg x)
  have hy : y * y = 0 :=
    le_antisymm (by nlinarith [mul_self_nonneg x, mul_self_nonneg z]) (mul_self_nonneg y)
  have hz : z * z = 0 :=
    le_antisymm (by nlinarith [mul_self_nonneg x, mul_self_nonneg y]) (mul_self_nonneg z)
  simp [mul_self_eq_zero.mp hx, mul_self_eq_zero.mp hy, mul_self_eq_zero.mp hz]

/-- The guarded primitive agrees everywhere with the branch-free Rodrigues
formula (in exact real arithmetic). -/
lemma angleAxisRotatePoint_eq_rodriguesRotate (ω pt : Vec3) :
    AngleAxisRotatePoint ω pt = rodriguesRotate ω pt := by
  unfold AngleAxisRotatePoint rodriguesRotate
  by_cases h : Vec3.dot ω ω = 0
  · rw [if_pos h]
    obtain rfl : ω = ⟨0, 0, 0⟩ := Vec3.dot_self_eq_zero h
    obtain ⟨x, y, z⟩ := pt
    simp [Vec3.dot, Vec3.cross, Vec3.smul, Vec3.add, Real.sqrt_zero,
      Real.cos_zero, Real.sin_zero]
  · rw [if_neg h]

/-- Zero axis-angle vector rotates every point to itself. -/
lemma angleAxisRotatePoint_zero (pt : Vec3) :
    AngleAxisRotatePoint ⟨0, 0, 0⟩ pt = pt := by
  obtain ⟨x, y, z⟩ := pt
  unfold AngleAxisRotatePoint
  rw [if_pos (by simp [Vec3.dot])]
  simp [Vec3.cross, Vec3.add]

/-- The branch-free Rodrigues formula also fixes every point at ω = 0. -/
lemma rodriguesRotate_zero (pt : Vec3) : rodriguesRotate ⟨0, 0, 0⟩ pt = pt := by
  rw [← angleAxisRotatePoint_eq_rodriguesRotate]
  exact angleAxisRotatePoint_zero pt

/-- Rotating `(1,0,0)` about the Z axis by angle θ gives `(cos θ, sin θ, 0)`. -/
lemma angleAxisRotatePoint_z_axis (θ : ℝ) :
    AngleAxisRotatePoint ⟨0, 0, θ⟩ ⟨1, 0, 0⟩ = ⟨Real.cos θ, Real.sin θ, 0⟩ := by
  by_cases h : θ = 0
  · subst h
    rw [angleAxisRotatePoint_zero]
    simp
  · unfold AngleAxisRotatePoint
    have hd : Vec3.dot ⟨0, 0, θ⟩ ⟨0, 0, θ⟩ = θ * θ := by simp [Vec3.dot]
    rw [if_neg (by rw [hd]; exact mul_self_ne_zero.mpr h)]
    rw [hd, Real.sqrt_mul_self_eq_abs]
    rcases abs_choice θ with he | he <;> rw [he] <;>
      simp only [Vec3.smul, Vec3.cross, Vec3.dot, Vec3.add, Vec3.mk.injEq,
        Real.cos_neg, Real.sin_neg] <;>
      refine ⟨?_, ?_, ?_⟩ <;> field_simp

lemma v3_0 (a b c : ℝ) : (![a, b, c] : Fin 3 → ℝ) 0 = a := rfl

lemma v3_1 (a b c : ℝ) : (![a, b, c] : Fin 3 → ℝ) 1 = b := rfl

lemma v3_2 (a b c : ℝ) : (![a, b, c] : Fin 3 → ℝ) 2 = c := rfl

lemma v4_0 (a b c d : ℝ) : (![a, b, c, d] : Fin 4 → ℝ) 0 = a := rfl

lemma v4_1 (a b c d : ℝ) : (![a, b, c, d] : Fin 4 → ℝ) 1 = b := rfl

lemma v4_2 (a b c d : ℝ) : (![a, b, c, d] : Fin 4 → ℝ) 2 = c := rfl

lemma v4_3 (a b c d : ℝ) : (![a, b, c, d] : Fin 4 → ℝ) 3 = d := rfl

lemma v6_0 (a b c d e f : ℝ) : (![a, b, c, d, e, f] : Fin 6 → ℝ) 0 = a := rfl

lemma v6_1 (a b c d e f : ℝ) : (![a, b, c, d, e, f] : Fin 6 → ℝ) 1 = b := rfl

lemma v6_2 (a b c d e f : ℝ) : (![a, b, c, d, e, f] : Fin 6 → ℝ) 2 = c := rfl

lemma v6_3 (a b c d e f : ℝ) : (![a, b, c, d, e, f] : Fin 6 → ℝ) 3 = d := rfl

lemma v6_4 (a b c d e f : ℝ) : (![a, b, c, d, e, f] : Fin 6 → ℝ) 4 = e := rfl

lemma v6_5 (a b c d e f : ℝ) : (![a, b, c, d, e, f] : Fin 6 → ℝ) 5 = f := rfl

lemma v9_0 (a b c d e f g h i : ℝ) : (![a, b, c, d, e, f, g, h, i] : Fin 9 → ℝ) 0 = a := rfl

lemma v9_1 (a b c d e f g h i : ℝ) : (![a, b, c, d, e, f, g, h, i] : Fin 9 → ℝ) 1 = b := rfl

lemma v9_2 (a b c d e f g h i : ℝ) : (![a, b, c, d, e, f, g, h, i] : Fin 9 → ℝ) 2 = c := rfl

lemma v9_3 (a b c d e f g h i : ℝ) : (![a, b, c, d, e, f, g, h, i] : Fin 9 → ℝ) 3 = d := rfl

lemma v9_4 (a b c d e f g h i : ℝ) : (![a, b, c, d, e, f, g, h, i] : Fin 9 → ℝ) 4 = e := rfl

lemma v9_5 (a b c d e f g h i : ℝ) : (![a, b, c, d, e, f, g, h, i] : Fin 9 → ℝ) 5 = f := rfl

lemma v9_6 (a b c d e f g h i : ℝ) : (![a, b, c, d, e, f, g, h, i] : Fin 9 → ℝ) 6 = g := rfl

lemma v9_7 (a b c d e f g h i : ℝ) : (![a, b, c, d, e, f, g, h, i] : Fin 9 → ℝ) 7 = h := rfl

lemma v9_8 (a b c d e f g h i : ℝ) : (![a, b, c, d, e, f, g, h, i] : Fin 9 → ℝ) 8 = i := rfl

/-- C3: for every intrinsics block [focal, ppx, ppy], extrinsics block
[r(3), t(3)], 3D point p and observation (obs_x, obs_y), if the camera-space
point (Xc,Yc,Zc) = Rodrigues(r)·p + t has Zc non-zero, then the Pinhole
residual functor writes out_residuals =
(ppx + focal*(Xc/Zc) - obs_x, ppy + focal*(Yc/Zc) - obs_y). -/
theorem pinhole_residual_formula (cam_K : Fin 3 → ℝ) (cam_Rt : Fin 6 → ℝ) (p : Vec3)
    (obs : ℝ × ℝ) (h : (specCameraPoint cam_Rt p).z ≠ 0) :
    (ResidualErrorFunctor_Pinhole_Intrinsic cam_K cam_Rt p obs).2 =
      (cam_K 1 + cam_K 0 * ((specCameraPoint cam_Rt p).x / (specCameraPoint cam_Rt p).z)
          - obs.1,
       cam_K 2 + cam_K 0 * ((specCameraPoint cam_Rt p).y / (specCameraPoint cam_Rt p).z)
          - obs.2) := by
  simp only [ResidualErrorFunctor_Pinhole_Intrinsic, pinholePredictedPixel,
    pinholeCameraPoint, specCameraPoint, angleAxisRotatePoint_eq_rodriguesRotate]

/-- Witness for C3 at focal 1000, principal point (500,500), identity rotation,
translation (0,0,1), point (0,0,0), observation (510,500). -/
theorem pinhole_residual_formula_witness :
    (specCameraPoint ![0, 0, 0, 0, 0, 1] ⟨0, 0, 0⟩).z ≠ 0 ∧
    (ResidualErrorFunctor_Pinhole_Intrinsic ![1000, 500, 500] ![0, 0, 0, 0, 0, 1]
        ⟨0, 0, 0⟩ (510, 500)).2 =
      ((![1000, 500, 500] : Fin 3 → ℝ) 1 + (![1000, 500, 500] : Fin 3 → ℝ) 0 *
          ((specCameraPoint ![0, 0, 0, 0, 0, 1] ⟨0, 0, 0⟩).x /
            (specCameraPoint ![0, 0, 0, 0, 0, 1] ⟨0, 0, 0⟩).z) - ((510 : ℝ), (500 : ℝ)).1,
       (![1000, 500, 500] : Fin 3 → ℝ) 2 + (![1000, 500, 500] : Fin 3 → ℝ) 0 *
          ((specCameraPoint ![0, 0, 0, 0, 0, 1] ⟨0, 0, 0⟩).y /
            (specCameraPoint ![0, 0, 0, 0, 0, 1] ⟨0, 0, 0⟩).z) - ((510 : ℝ), (500 : ℝ)).2) := by
  have hz : (specCameraPoint ![0, 0, 0, 0, 0, 1] ⟨0, 0, 0⟩).z ≠ 0 := by
    simp [specCameraPoint, v6_0, v6_1, v6_2, v6_3, v6_4, v6_5, rodriguesRotate_zero, Vec3.add]
  exact ⟨hz, pinhole_residual_formula _ _ _ _ hz⟩

/-- C4: for every pose, every Radial-K1 intrinsics block [focal, ppx, ppy, 0]
with k1 = 0, every 3D point with non-zero depth and every observation, the
Radial-K1 residual functor produces residuals identical to the Pinhole
residual functor with intrinsics [focal, ppx, ppy]. -/
theorem radial_k1_zero_reduces_to_pinhole (focal ppx ppy : ℝ) (cam_Rt : Fin 6 → ℝ)
    (p : Vec3) (obs : ℝ × ℝ) (h : (pinholeCameraPoint cam_Rt p).z ≠ 0) :
    ResidualErrorFunctor_Pinhole_Intrinsic_Radial_K1 ![focal, ppx, ppy, 0] cam_Rt p obs =
      ResidualErrorFunctor_Pinhole_Intrinsic ![focal, ppx, ppy] cam_Rt p obs := by
  simp only [ResidualErrorFunctor_Pinhole_Intrinsic_Radial_K1,
    ResidualErrorFunctor_Pinhole_Intrinsic, radialK1PredictedPixel, pinholePredictedPixel,
    v4_0, v4_1, v4_2, v4_3, v3_0, v3_1, v3_2, Prod.mk.injEq]
  refine ⟨trivial, by ring, by ring⟩

/-- Witness for C4 at focal 1000, principal point (500,500), identity rotation,
translation (0,0,1), point (0,0,0), observation (500,500). -/
theorem radial_k1_zero_reduces_to_pinhole_witness :
    (pinholeCameraPoint ![0, 0, 0, 0, 0, 1] ⟨0, 0, 0⟩).z ≠ 0 ∧
    ResidualErrorFunctor_Pinhole_Intrinsic_Radial_K1 ![1000, 500, 500, 0]
        ![0, 0, 0, 0, 0, 1] ⟨0, 0, 0⟩ (500, 500) =
      ResidualErrorFunctor_Pinhole_Intrinsic ![1000, 500, 500]
        ![0, 0, 0, 0, 0, 1] ⟨0, 0, 0⟩ (500, 500) := by
  have hz : (pinholeCameraPoint ![0, 0, 0, 0, 0, 1] ⟨0, 0, 0⟩).z ≠ 0 := by
    simp [pinholeCameraPoint, v6_0, v6_1, v6_2, v6_3, v6_4, v6_5,
      angleAxisRotatePoint_zero, Vec3.add]
  exact ⟨hz, radial_k1_zero_reduces_to_pinhole 1000 500 500 _ _ _ hz⟩

/-- C8: every one of the four residual functors returns the success flag true
on every input; none of them has a failure path. -/
theorem functors_always_return_true :
    (∀ (cam_K : Fin 3 → ℝ) (cam_Rt : Fin 6 → ℝ) (p : Vec3) (obs : ℝ × ℝ),
      (ResidualErrorFunctor_Pinhole_Intrinsic cam_K cam_Rt p obs).1 = true) ∧
    (∀ (cam_K : Fin 4 → ℝ) (cam_Rt : Fin 6 → ℝ) (p : Vec3) (obs : ℝ × ℝ),
      (ResidualErrorFunctor_Pinhole_Intrinsic_Radial_K1 cam_K cam_Rt p obs).1 = true) ∧
    (∀ (cam_K : Fin 6 → ℝ) (cam_Rt : Fin 6 → ℝ) (p : Vec3) (obs : ℝ × ℝ),
      (ResidualErrorFunctor_Pinhole_Intrinsic_Radial_K3 cam_K cam_Rt p obs).1 = true) ∧
    (∀ (cam_K : Fin 9 → ℝ) (cam_Rt : Fin 6 → ℝ) (p : Vec3) (obs : ℝ × ℝ),
      (ResidualErrorFunctor_Pinhole_Rig_Intrinsic cam_K cam_Rt p obs).1 = true) :=
  ⟨fun _ _ _ _ => rfl, fun _ _ _ _ => rfl, fun _ _ _ _ => rfl, fun _ _ _ _ => rfl⟩

/-- C9: the axis-angle rotation primitive fixes every point when applied with
the zero vector, and rotating (1,0,0) by the axis-angle vector (0,0,θ)
returns (cos θ, sin θ, 0). -/
theorem angle_axis_rotation_primitive_correct :
    (∀ p : Vec3, AngleAxisRotatePoint ⟨0, 0, 0⟩ p = p) ∧
    (∀ θ : ℝ, AngleAxisRotatePoint ⟨0, 0, θ⟩ ⟨1, 0, 0⟩ = ⟨Real.cos θ, Real.sin θ, 0⟩) :=
  ⟨angleAxisRotatePoint_zero, angleAxisRotatePoint_z_axis⟩

/-- C5: the Radial-K3 residual functor with k1 = k2 = k3 = 0 produces residuals
identical to the Pinhole functor with the same [focal, ppx, ppy]; with only
k2 = k3 = 0 it produces residuals identical to the Radial-K1 functor with the
same [focal, ppx, ppy, k1]; and its distortion coefficient is
1 + k1*r2 + k2*r2^2 + k3*r2^3 of the squared radius r2 = x_u^2 + y_u^2. -/
theorem radial_k3_reduction_properties (focal ppx ppy k1 k2 k3 : ℝ)
    (cam_Rt : Fin 6 → ℝ) (p : Vec3) (obs : ℝ × ℝ)
    (h : (pinholeCameraPoint cam_Rt p).z ≠ 0) :
    (ResidualErrorFunctor_Pinhole_Intrinsic_Radial_K3 ![focal, ppx, ppy, 0, 0, 0]
        cam_Rt p obs =
      ResidualErrorFunctor_Pinhole_Intrinsic ![focal, ppx, ppy] cam_Rt p obs) ∧
    (ResidualErrorFunctor_Pinhole_Intrinsic_Radial_K3 ![focal, ppx, ppy, k1, 0, 0]
        cam_Rt p obs =
      ResidualErrorFunctor_Pinhole_Intrinsic_Radial_K1 ![focal, ppx, ppy, k1]
        cam_Rt p obs) ∧
    (ResidualErrorFunctor_Pinhole_Intrinsic_Radial_K3 ![focal, ppx, ppy, k1, k2, k3]
        cam_Rt p obs).2 =
      (ppx + focal * (x_u cam_Rt p *
          (1 + k1 * r2 cam_Rt p + k2 * r2 cam_Rt p ^ 2 + k3 * r2 cam_Rt p ^ 3)) - obs.1,
       ppy + focal * (y_u cam_Rt p *
          (1 + k1 * r2 cam_Rt p + k2 * r2 cam_Rt p ^ 2 + k3 * r2 cam_Rt p ^ 3)) - obs.2) := by
  refine ⟨?_, ?_, ?_⟩
  · simp only [ResidualErrorFunctor_Pinhole_Intrinsic_Radial_K3,
      ResidualErrorFunctor_Pinhole_Intrinsic, radialK3PredictedPixel,
      pinholePredictedPixel, v6_0, v6_1, v6_2, v6_3, v6_4, v6_5,
      v3_0, v3_1, v3_2, Prod.mk.injEq]
    refine ⟨trivial, by ring, by ring⟩
  · simp only [ResidualErrorFunctor_Pinhole_Intrinsic_Radial_K3,
      ResidualErrorFunctor_Pinhole_Intrinsic_Radial_K1, radialK3PredictedPixel,
      radialK1PredictedPixel, v6_0, v6_1, v6_2, v6_3, v6_4, v6_5,
      v4_0, v4_1, v4_2, v4_3, Prod.mk.injEq]
    refine ⟨trivial, by ring, by ring⟩
  · simp only [ResidualErrorFunctor_Pinhole_Intrinsic_Radial_K3,
      radialK3PredictedPixel, x_u, y_u, r2, v6_0, v6_1, v6_2, v6_3, v6_4, v6_5,
      Prod.mk.injEq]
    refine ⟨by ring, by ring⟩

/-- Witness for C5 at focal 1000, principal point (500,500), k1 = 1, k2 = 2,
k3 = 3, identity rotation, translation (0,0,1), point (0,0,0). -/
theorem radial_k3_reduction_properties_witness :
    (pinholeCameraPoint ![0, 0, 0, 0, 0, 1] ⟨0, 0, 0⟩).z ≠ 0 ∧
    ((ResidualErrorFunctor_Pinhole_Intrinsic_Radial_K3 ![1000, 500, 500, 0, 0, 0]
        ![0, 0, 0, 0, 0, 1] ⟨0, 0, 0⟩ (500, 500) =
      ResidualErrorFunctor_Pinhole_Intrinsic ![1000, 500, 500]
        ![0, 0, 0, 0, 0, 1] ⟨0, 0, 0⟩ (500, 500)) ∧
    (ResidualErrorFunctor_Pinhole_Intrinsic_Radial_K3 ![1000, 500, 500, 1, 0, 0]
        ![0, 0, 0, 0, 0, 1] ⟨0, 0, 0⟩ (500, 500) =
      ResidualErrorFunctor_Pinhole_Intrinsic_Radial_K1 ![1000, 500, 500, 1]
        ![0, 0, 0, 0, 0, 1] ⟨0, 0, 0⟩ (500, 500)) ∧
    (ResidualErrorFunctor_Pinhole_Intrinsic_Radial_K3 ![1000, 500, 500, 1, 2, 3]
        ![0, 0, 0, 0, 0, 1] ⟨0, 0, 0⟩ (500, 500)).2 =
      (500 + 1000 * (x_u ![0, 0, 0, 0, 0, 1] ⟨0, 0, 0⟩ *
          (1 + 1 * r2 ![0, 0, 0, 0, 0, 1] ⟨0, 0, 0⟩ +
            2 * r2 ![0, 0, 0, 0, 0, 1] ⟨0, 0, 0⟩ ^ 2 +
            3 * r2 ![0, 0, 0, 0, 0, 1] ⟨0, 0, 0⟩ ^ 3)) - 500,
       500 + 1000 * (y_u ![0, 0, 0, 0, 0, 1] ⟨0, 0, 0⟩ *
          (1 + 1 * r2 ![0, 0, 0, 0, 0, 1] ⟨0, 0, 0⟩ +
            2 * r2 ![0, 0, 0, 0, 0, 1] ⟨0, 0, 0⟩ ^ 2 +
            3 * r2 ![0, 0, 0, 0, 0, 1] ⟨0, 0, 0⟩ ^ 3)) - 500)) := by
  have hz : (pinholeCameraPoint ![0, 0, 0, 0, 0, 1] ⟨0, 0, 0⟩).z ≠ 0 := by
    simp [pinholeCameraPoint, v6_0, v6_1, v6_2, v6_3, v6_4, v6_5,
      angleAxisRotatePoint_zero, Vec3.add]
  exact ⟨hz, radial_k3_reduction_properties 1000 500 500 1 2 3 _ _ _ hz⟩

/-- C6: for every pose, intrinsics block and 3D point with non-zero projected
depth, each of the four residual functors evaluated with its own predicted
pixel position as the observation yields residual exactly (0, 0). -/
theorem exact_projection_zero_residual (cam_K3 : Fin 3 → ℝ) (cam_K4 : Fin 4 → ℝ)
    (cam_K6 : Fin 6 → ℝ) (cam_K9 : Fin 9 → ℝ) (cam_Rt : Fin 6 → ℝ) (p : Vec3)
    (h : (pinholeCameraPoint cam_Rt p).z ≠ 0)
    (h9 : (rigCameraPoint cam_K9 cam_Rt p).z ≠ 0) :
    (ResidualErrorFunctor_Pinhole_Intrinsic cam_K3 cam_Rt p
        (pinholePredictedPixel cam_K3 cam_Rt p)).2 = (0, 0) ∧
    (ResidualErrorFunctor_Pinhole_Intrinsic_Radial_K1 cam_K4 cam_Rt p
        (radialK1PredictedPixel cam_K4 cam_Rt p)).2 = (0, 0) ∧
    (ResidualErrorFunctor_Pinhole_Intrinsic_Radial_K3 cam_K6 cam_Rt p
        (radialK3PredictedPixel cam_K6 cam_Rt p)).2 = (0, 0) ∧
    (ResidualErrorFunctor_Pinhole_Rig_Intrinsic cam_K9 cam_Rt p
        (rigPredictedPixel cam_K9 cam_Rt p)).2 = (0, 0) := by
  refine ⟨?_, ?_, ?_, ?_⟩ <;>
    simp [ResidualErrorFunctor_Pinhole_Intrinsic,
      ResidualErrorFunctor_Pinhole_Intrinsic_Radial_K1,
      ResidualErrorFunctor_Pinhole_Intrinsic_Radial_K3,
      ResidualErrorFunctor_Pinhole_Rig_Intrinsic, Prod.ext_iff]

/-- Witness for C6 at identity rotation, translation (0,0,1), point (0,0,1),
and zero rig sub-pose. -/
theorem exact_projection_zero_residual_witness :
    (pinholeCameraPoint ![0, 0, 0, 0, 0, 1] ⟨0, 0, 1⟩).z ≠ 0 ∧
    (rigCameraPoint ![1000, 500, 500, 0, 0, 0, 0, 0, 0] ![0, 0, 0, 0, 0, 1] ⟨0, 0, 1⟩).z ≠ 0 ∧
    ((ResidualErrorFunctor_Pinhole_Intrinsic ![1000, 500, 500] ![0, 0, 0, 0, 0, 1] ⟨0, 0, 1⟩
        (pinholePredictedPixel ![1000, 500, 500] ![0, 0, 0, 0, 0, 1] ⟨0, 0, 1⟩)).2 = (0, 0) ∧
    (ResidualErrorFunctor_Pinhole_Intrinsic_Radial_K1 ![1000, 500, 500, 1]
        ![0, 0, 0, 0, 0, 1] ⟨0, 0, 1⟩
        (radialK1PredictedPixel ![1000, 500, 500, 1] ![0, 0, 0, 0, 0, 1] ⟨0, 0, 1⟩)).2 = (0, 0) ∧
    (ResidualErrorFunctor_Pinhole_Intrinsic_Radial_K3 ![1000, 500, 500, 1, 2, 3]
        ![0, 0, 0, 0, 0, 1] ⟨0, 0, 1⟩
        (radialK3PredictedPixel ![1000, 500, 500, 1, 2, 3] ![0, 0, 0, 0, 0, 1] ⟨0, 0, 1⟩)).2
        = (0, 0) ∧
    (ResidualErrorFunctor_Pinhole_Rig_Intrinsic ![1000, 500, 500, 0, 0, 0, 0, 0, 0]
        ![0, 0, 0, 0, 0, 1] ⟨0, 0, 1⟩
        (rigPredictedPixel ![1000, 500, 500, 0, 0, 0, 0, 0, 0] ![0, 0, 0, 0, 0, 1]
          ⟨0, 0, 1⟩)).2 = (0, 0)) := by
  have hz : (pinholeCameraPoint ![0, 0, 0, 0, 0, 1] ⟨0, 0, 1⟩).z ≠ 0 := by
    simp [pinholeCameraPoint, v6_0, v6_1, v6_2, v6_3, v6_4, v6_5,
      angleAxisRotatePoint_zero, Vec3.add]
  have hz9 : (rigCameraPoint ![1000, 500, 500, 0, 0, 0, 0, 0, 0]
      ![0, 0, 0, 0, 0, 1] ⟨0, 0, 1⟩).z ≠ 0 := by
    simp [rigCameraPoint, v9_0, v9_1, v9_2, v9_3, v9_4, v9_5, v9_6, v9_7, v9_8,
      v6_0, v6_1, v6_2, angleAxisRotatePoint_zero, Vec3.add]
  exact ⟨hz, hz9, exact_projection_zero_residual _ _ _ _ _ _ hz hz9⟩

/-- C7: end-to-end pinhole example — identity rotation, translation (0,0,1),
point (0,0,0), focal 1000, principal point (500,500): the camera-space point
is (0,0,1), the normalized coordinates are (0,0), the predicted pixel is
(500,500); with observation (500,500) the residual is (0,0) and with
observation (510,500) the residual is (-10,0). -/
theorem pinhole_end_to_end_example :
    pinholeCameraPoint ![0, 0, 0, 0, 0, 1] ⟨0, 0, 0⟩ = ⟨0, 0, 1⟩ ∧
    x_u ![0, 0, 0, 0, 0, 1] ⟨0, 0, 0⟩ = 0 ∧
    y_u ![0, 0, 0, 0, 0, 1] ⟨0, 0, 0⟩ = 0 ∧
    pinholePredictedPixel ![1000, 500, 500] ![0, 0, 0, 0, 0, 1] ⟨0, 0, 0⟩ = (500, 500) ∧
    (ResidualErrorFunctor_Pinhole_Intrinsic ![1000, 500, 500] ![0, 0, 0, 0, 0, 1]
        ⟨0, 0, 0⟩ (500, 500)).2 = (0, 0) ∧
    (ResidualErrorFunctor_Pinhole_Intrinsic ![1000, 500, 500] ![0, 0, 0, 0, 0, 1]
        ⟨0, 0, 0⟩ (510, 500)).2 = (-10, 0) := by
  have hc : pinholeCameraPoint ![0, 0, 0, 0, 0, 1] ⟨0, 0, 0⟩ = ⟨0, 0, 1⟩ := by
    simp [pinholeCameraPoint, v6_0, v6_1, v6_2, v6_3, v6_4, v6_5,
      angleAxisRotatePoint_zero, Vec3.add]
  refine ⟨hc, ?_, ?_, ?_, ?_, ?_⟩ <;>
    norm_num [x_u, y_u, pinholePredictedPixel, ResidualErrorFunctor_Pinhole_Intrinsic,
      hc, v3_0, v3_1, v3_2, Prod.ext_iff]

/-- C10: the Rig residual functor's output does not depend on the platform
translation — two extrinsics blocks agreeing on the rotation entries
(indices 0-2) but arbitrary in the translation entries (indices 3-5) give
identical results for identical intrinsics, point and observation. -/
theorem rig_residual_ignores_platform_translation (cam_K : Fin 9 → ℝ)
    (cam_Rt cam_Rt' : Fin 6 → ℝ) (p : Vec3) (obs : ℝ × ℝ)
    (h0 : cam_Rt 0 = cam_Rt' 0) (h1 : cam_Rt 1 = cam_Rt' 1)
    (h2 : cam_Rt 2 = cam_Rt' 2) :
    ResidualErrorFunctor_Pinhole_Rig_Intrinsic cam_K cam_Rt p obs =
      ResidualErrorFunctor_Pinhole_Rig_Intrinsic cam_K cam_Rt' p obs := by
  simp only [ResidualErrorFunctor_Pinhole_Rig_Intrinsic, rigPredictedPixel,
    rigCameraPoint, h0, h1, h2]

/-- Witness for C10: identical zero rotations, translations (0,0,0) versus
(7,8,9). -/
theorem rig_residual_ignores_platform_translation_witness :
    ((![0, 0, 0, 0, 0, 0] : Fin 6 → ℝ) 0 = (![0, 0, 0, 7, 8, 9] : Fin 6 → ℝ) 0) ∧
    ((![0, 0, 0, 0, 0, 0] : Fin 6 → ℝ) 1 = (![0, 0, 0, 7, 8, 9] : Fin 6 → ℝ) 1) ∧
    ((![0, 0, 0, 0, 0, 0] : Fin 6 → ℝ) 2 = (![0, 0, 0, 7, 8, 9] : Fin 6 → ℝ) 2) ∧
    ResidualErrorFunctor_Pinhole_Rig_Intrinsic ![1000, 500, 500, 0, 0, 0, 0, 0, 0]
        ![0, 0, 0, 0, 0, 0] ⟨1, 2, 3⟩ (4, 5) =
      ResidualErrorFunctor_Pinhole_Rig_Intrinsic ![1000, 500, 500, 0, 0, 0, 0, 0, 0]
        ![0, 0, 0, 7, 8, 9] ⟨1, 2, 3⟩ (4, 5) :=
  ⟨rfl, rfl, rfl,
    rig_residual_ignores_platform_translation _ _ _ _ _ rfl rfl rfl⟩

/-- C1 fails on the code: with an all-zero sub-pose, identity platform
rotation, platform translation (0,0,1), point (1,1,1) and observation
(500,500), the Rig functor yields residual (1000,1000) while the Pinhole
functor with the platform pose as extrinsics yields (500,500) — the rig
functor never adds the platform translation. -/
theorem rig_identity_subpose_code_divergence :
    (ResidualErrorFunctor_Pinhole_Rig_Intrinsic ![1000, 500, 500, 0, 0, 0, 0, 0, 0]
        ![0, 0, 0, 0, 0, 1] ⟨1, 1, 1⟩ (500, 500)).2 = (1000, 1000) ∧
    (ResidualErrorFunctor_Pinhole_Intrinsic ![1000, 500, 500]
        ![0, 0, 0, 0, 0, 1] ⟨1, 1, 1⟩ (500, 500)).2 = (500, 500) ∧
    ((1000, 1000) : ℝ × ℝ) ≠ ((500, 500) : ℝ × ℝ) := by
  refine ⟨?_, ?_, ?_⟩
  · norm_num [ResidualErrorFunctor_Pinhole_Rig_Intrinsic, rigPredictedPixel,
      rigCameraPoint, v9_0, v9_1, v9_2, v9_3, v9_4, v9_5, v9_6, v9_7, v9_8,
      v6_0, v6_1, v6_2, angleAxisRotatePoint_zero, Vec3.add, Prod.ext_iff]
  · norm_num [ResidualErrorFunctor_Pinhole_Intrinsic, pinholePredictedPixel,
      pinholeCameraPoint, v3_0, v3_1, v3_2, v6_0, v6_1, v6_2, v6_3, v6_4, v6_5,
      angleAxisRotatePoint_zero, Vec3.add, Prod.ext_iff]
  · intro hcontr
    rw [Prod.mk.injEq] at hcontr
    norm_num at hcontr

/-- C2 fails on the code: with zero sub-pose, identity platform rotation and
platform translation (0,0,1), the rig functor's camera-space point for
(1,2,3) is (1,2,3) — the platform translation is never added — while the
spec's composition (sub-pose translation rotated by the platform rotation,
plus the sub-pose translation, plus the platform translation) gives
(1,2,4). -/
theorem rig_translation_code_divergence :
    rigCameraPoint ![1000, 500, 500, 0, 0, 0, 0, 0, 0] ![0, 0, 0, 0, 0, 1] ⟨1, 2, 3⟩ =
        ⟨1, 2, 3⟩ ∧
    rigCameraPointSpec ![1000, 500, 500, 0, 0, 0, 0, 0, 0] ![0, 0, 0, 0, 0, 1] ⟨1, 2, 3⟩ =
        ⟨1, 2, 4⟩ ∧
    (⟨1, 2, 3⟩ : Vec3) ≠ (⟨1, 2, 4⟩ : Vec3) := by
  refine ⟨?_, ?_, ?_⟩
  · norm_num [rigCameraPoint, v9_0, v9_1, v9_2, v9_3, v9_4, v9_5, v9_6, v9_7, v9_8,
      v6_0, v6_1, v6_2, angleAxisRotatePoint_zero, Vec3.add, Vec3.mk.injEq]
  · norm_num [rigCameraPointSpec, v9_0, v9_1, v9_2, v9_3, v9_4, v9_5, v9_6, v9_7, v9_8,
      v6_0, v6_1, v6_2, v6_3, v6_4, v6_5, angleAxisRotatePoint_zero, Vec3.add,
      Vec3.mk.injEq]
  · intro hcontr
    rw [Vec3.mk.injEq] at hcontr
    norm_num at hcontr

end OpenMVG
